import Mathlib

/-
Verification of the function-sampling / integral-estimation engine of the
integral_site repository (src/function.rs and src/lib.rs).

Modelling conventions:
* `f64` (and the wasm build's `f32`) values are embedded as exact rationals `ℚ`.
  Every concrete input used below is dyadic and small, so the floating-point
  computation it models is exact and agrees with the rational one.
* A floating-point value that may be NaN is embedded as `FVal`
  (`FVal.nan` or `FVal.val q`); arithmetic on `FVal` propagates NaN and
  comparisons against NaN are false, as for `f64`.  Infinities play no role in
  the verified claims and are not modelled.
* `Rust` panics (`panic!`, `unwrap`, `expect`) are embedded as the error branch
  of `Except Panic _`.  The engine functions return no `Result` in the source,
  so the error branch always models a panic, never an ordinary return value.
  Where a claim depends on the state at the moment of the panic, the error
  value carries that state.
* The expression parser (`meval`) is an external collaborator; it is embedded
  as an abstract `Compiler : String → Option (ℚ → FVal)` parameter, `none`
  modelling a parse failure.
* The spec verifies reuse-versus-recompute behaviour by counting evaluations
  of the compiled function; the embedding therefore threads an evaluation
  counter `evals` through the state, incremented exactly where the source
  calls `run_func`.
-/

namespace IntegralSite

/-- Embedding of a floating-point value that may be NaN: `nan` or an exact
rational. -/
inductive FVal where
  | nan : FVal
  | val (q : ℚ) : FVal
deriving DecidableEq, Repr

/-- Rust `f64::is_nan`. -/
def FVal.isNaN : FVal → Bool
  | .nan => true
  | .val _ => false

/-- Floating-point addition restricted to the values `FVal` models:
NaN-propagating. -/
def FVal.add : FVal → FVal → FVal
  | .val a, .val b => .val (a + b)
  | _, _ => .nan

/-- Floating-point division by two, NaN-propagating. -/
def FVal.half : FVal → FVal
  | .val a => .val (a / 2)
  | .nan => .nan

/-- Projection to the rational payload; only ever applied after the NaN filter,
so the `nan` default is unreachable there. -/
def FVal.q : FVal → ℚ
  | .nan => 0
  | .val a => a

/-- Rust comparison `tmp2.abs() > tmp1.abs()`: false whenever either side is
NaN, as for `f64`/`f32`. -/
def FVal.absGt : FVal → FVal → Bool
  | .val a, .val b => decide (|a| > |b|)
  | _, _ => false

/-- Rust comparison `lo <= y && y <= hi`: false when `y` is NaN. -/
def FVal.inRange (lo hi : ℚ) : FVal → Bool
  | .nan => false
  | .val a => decide (lo ≤ a ∧ a ≤ hi)

/-- The expression compiler (`meval`), an external collaborator: a parse
failure is `none`. -/
def Compiler : Type := String → Option (ℚ → FVal)

/-- A Rust panic message. -/
def Panic : Type := String

/-- src/function.rs `RiemannSum`: the quadrature rule. -/
inductive RiemannSum where
  | Left : RiemannSum
  | Middle : RiemannSum
  | Right : RiemannSum
deriving DecidableEq, Repr

/-- egui `plot::Value`: one sampled point. -/
structure Value where
  x : ℚ
  y : FVal
deriving DecidableEq, Repr

/-- src/function.rs `Function`: the sampling/integration engine state.
`integral_min_x`/`integral_max_x` are stored in the source as `f64` using NaN
as the "unset" sentinel; the embedding stores them as `Option ℚ` with `none`
playing the NaN sentinel.  `evals` is the evaluation counter described in the
header comment (not a source field). -/
structure Function where
  f : ℚ → FVal
  func_str : String
  min_x : ℚ
  max_x : ℚ
  pixel_width : ℕ
  back_cache : Option (List Value)
  front_cache : Option (List (ℚ × FVal) × ℚ)
  integral : Bool
  integral_min_x : Option ℚ
  integral_max_x : Option ℚ
  integral_num : ℕ
  sum : RiemannSum
  evals : ℕ

/-- src/function.rs `Function::new`.  The four `expect` calls and the
`parse().unwrap()` are the panic branches, in source order. -/
def Function.new (c : Compiler) (func_str : String) (min_x max_x : ℚ)
    (pixel_width : ℕ) (integral : Bool) (imin imax : Option ℚ)
    (inum : Option ℕ) (rsum : Option RiemannSum) : Except Panic Function :=
  if integral = true ∧ imin.isNone = true then
    .error "Invalid arguments: integral_min_x is None, but integral is enabled."
  else if integral = true ∧ imax.isNone = true then
    .error "Invalid arguments: integral_max_x is None, but integral is enabled."
  else if integral = true ∧ inum.isNone = true then
    .error "Invalid arguments: integral_num is None, but integral is enabled."
  else if integral = true ∧ rsum.isNone = true then
    .error "Invalid arguments: sum is None, but integral is enabled"
  else
    match c func_str with
    | none => .error "func_str.parse() failed"
    | some f =>
        .ok { f := f, func_str := func_str, min_x := min_x, max_x := max_x,
              pixel_width := pixel_width, back_cache := none,
              front_cache := none, integral := integral,
              integral_min_x := imin, integral_max_x := imax,
              integral_num := inum.getD 0, sum := rsum.getD .Left,
              evals := 0 }

/-- src/function.rs `Function::run_func`. -/
def Function.run_func (s : Function) (x : ℚ) : FVal := s.f x

/-- Rust `incoming != Some(stored)` where the stored `f64` may be the NaN
sentinel (embedded as `none`): a NaN on the stored side compares unequal to
everything. -/
def neqStored (incoming stored : Option ℚ) : Bool :=
  match stored with
  | none => true
  | some q => decide (incoming ≠ some q)

/-- The integral-settings comparison of src/function.rs `Function::update`
(lines 107-111): true when any of the four integration parameters differs
from the stored one. -/
def Function.integralSettingsChanged (s : Function) (imin imax : Option ℚ)
    (inum : Option ℕ) (rsum : Option RiemannSum) : Bool :=
  neqStored imin s.integral_min_x || neqStored imax s.integral_max_x ||
    decide (inum ≠ some s.integral_num) || decide (rsum ≠ some s.sum)

/-- src/function.rs `Function::update`.  The empty-string early return, the
wipe-and-restart on a changed string, and the integral-settings branch with
its `expect` panics, in source order; the error value carries the state the
`&mut self` holds at the moment of the panic. -/
def Function.update (c : Compiler) (s : Function) (func_str : String)
    (integral : Bool) (imin imax : Option ℚ) (inum : Option ℕ)
    (rsum : Option RiemannSum) : Except (Panic × Function) Function :=
  if func_str = "" then
    .ok { s with func_str := func_str }
  else if func_str ≠ s.func_str then
    match Function.new c func_str s.min_x s.max_x s.pixel_width integral
        imin imax inum rsum with
    | .ok t => .ok t
    | .error e => .error (e, s)
  else
    let s := { s with integral := integral }
    if integral = true ∧ s.integralSettingsChanged imin imax inum rsum = true
    then
      let s1 := { s with front_cache := none }
      match imin with
      | none => .error ("integral_min_x is None", s1)
      | some a =>
          let s2 := { s1 with integral_min_x := some a }
          match imax with
          | none => .error ("integral_max_x is None", s2)
          | some b =>
              let s3 := { s2 with integral_max_x := some b }
              match inum with
              | none => .error ("integral_num is None", s3)
              | some n =>
                  let s4 := { s3 with integral_num := n }
                  match rsum with
                  | none => .error ("sum is None", s4)
                  | some r => .ok { s4 with sum := r }
    else
      .ok s

/-- The x positions generated by both sampling paths:
`(0..=pixel_width).map(|x| (x as f64 / resolution) + min_x)`. -/
def samplePositions (pixel_width : ℕ) (resolution min_x : ℚ) : List ℚ :=
  (List.range (pixel_width + 1)).map (fun (j : ℕ) => (j : ℚ) / resolution + min_x)

/-- One step of the partial-reuse path of src/function.rs
`Function::update_bounds` (lines 136-149): produce the point for position `x`
together with the number of `run_func` calls it cost (0 on reuse, 1 on a fresh
evaluation).  `prev` is the previous series, `x_data` its x values. -/
def Function.reuseStep (s : Function) (prev : List Value) (x_data : List ℚ)
    (x : ℚ) : Value × ℕ :=
  if x < s.min_x ∨ s.max_x < x then
    (⟨x, s.run_func x⟩, 1)
  else
    match x_data.findIdx? (fun r => decide (r = x)) with
    | some i =>
        match prev[i]? with
        | some v => (v, 0)
        | none => (⟨x, s.run_func x⟩, 1)
    | none => (⟨x, s.run_func x⟩, 1)

/-- src/function.rs `Function::update_bounds`.  Note three source facts the
theorems below depend on: the partial-reuse branch computes its resolution
from `max_x.abs() + min_x.abs()`, it does not update the stored
`min_x`/`max_x`/`pixel_width`, and the final `else` branch (taken when
nothing changed) still clears `back_cache`. -/
def Function.update_bounds (s : Function) (min_x max_x : ℚ)
    (pixel_width : ℕ) : Function :=
  if pixel_width ≠ s.pixel_width then
    { s with back_cache := none, min_x := min_x, max_x := max_x,
             pixel_width := pixel_width }
  else if (min_x ≠ s.min_x ∨ max_x ≠ s.max_x) ∧ s.back_cache ≠ none then
    match s.back_cache with
    | none => s
    | some prev =>
        let resolution : ℚ := (s.pixel_width : ℚ) / (|max_x| + |min_x|)
        let x_data : List ℚ := prev.map (fun v => v.x)
        let xs := samplePositions s.pixel_width resolution min_x
        { s with
          back_cache := some (xs.map (fun x => (s.reuseStep prev x_data x).1)),
          evals := s.evals + (xs.map (fun x => (s.reuseStep prev x_data x).2)).sum }
  else
    { s with back_cache := none, min_x := min_x, max_x := max_x,
             pixel_width := pixel_width }

/-- The unfiltered rectangle list of src/function.rs
`Function::integral_rectangles` (the `map` stage of lines 204-230): for each
index `e`, the pair (display x, height). -/
def Function.rectRaw (s : Function) (imin imax : ℚ) : List (ℚ × FVal) :=
  let step : ℚ := |imin - imax| / (s.integral_num : ℚ)
  let half_step : ℚ := step / 2
  (List.range s.integral_num).map (fun (e : ℕ) =>
    let x : ℚ := (e : ℚ) * step + imin
    let x2 : ℚ := if 0 ≤ x then x + step else x - step
    let lr : ℚ × ℚ := if 0 ≤ x then (x, x2) else (x2, x)
    ((if 0 ≤ x then x + half_step else x - half_step),
     match s.sum with
     | .Left => s.run_func lr.1
     | .Right => s.run_func lr.2
     | .Middle => ((s.run_func lr.1).add (s.run_func lr.2)).half))

/-- src/function.rs `Function::integral_rectangles`: panics on NaN bounds,
otherwise filters the NaN-height rectangles out of `rectRaw` and sums the
signed areas.  Also returns the number of `run_func` calls performed (one per
rectangle for Left/Right, two for Middle, all before the filter). -/
def Function.integral_rectangles (s : Function) :
    Except Panic (List (ℚ × FVal) × ℚ × ℕ) :=
  match s.integral_min_x with
  | none => .error "integral_min_x is NaN"
  | some imin =>
      match s.integral_max_x with
      | none => .error "integral_max_x is NaN"
      | some imax =>
          let step : ℚ := |imin - imax| / (s.integral_num : ℚ)
          let data2 := (s.rectRaw imin imax).filter (fun p => !p.2.isNaN)
          let area : ℚ := (data2.map (fun p => p.2.q * step)).sum
          .ok (data2, area,
               s.integral_num * (match s.sum with | .Middle => 2 | _ => 1))

/-- The back-cache stage of src/function.rs `Function::run` (lines 161-174):
return the cached series, recomputing it first when absent (at
`pixel_width + 1` evaluations). -/
def Function.runLine (s : Function) : List Value × Function :=
  match s.back_cache with
  | some cache => (cache, s)
  | none =>
      let resolution : ℚ := (s.pixel_width : ℚ) / |s.max_x - s.min_x|
      let cache := (samplePositions s.pixel_width resolution s.min_x).map
        (fun x => Value.mk x (s.run_func x))
      (cache, { s with back_cache := some cache,
                       evals := s.evals + (s.pixel_width + 1) })

/-- src/function.rs `Function::run`: the line series, then (when `integral`)
the rectangles plus area, each from its cache when present. -/
def Function.run (s0 : Function) :
    Except Panic (List Value × Option (List (ℚ × FVal) × ℚ) × Function) :=
  let line := s0.runLine
  let s := line.2
  if s.integral = true then
    match s.front_cache with
    | some cache => .ok (line.1, some cache, s)
    | none =>
        match s.integral_rectangles with
        | .error e => .error e
        | .ok (data, area, n) =>
            .ok (line.1, some (data, area),
                 { s with front_cache := some (data, area),
                          evals := s.evals + n })
  else
    .ok (line.1, none, s)

/-- src/lib.rs `ChartManager`: the wasm build's engine state (`f32` values
embedded as `ℚ`, `i32` as `ℤ`). -/
structure ChartManager where
  func_str : String
  min_x : ℚ
  max_x : ℚ
  min_y : ℚ
  max_y : ℚ
  num_interval : ℕ
  resolution : ℤ
  back_cache : Option (List (ℚ × FVal))
  front_cache : Option (List (ℚ × ℚ × FVal) × ℚ)
  use_back_cache : Bool
  use_front_cache : Bool

/-- src/lib.rs `ChartManager::new`. -/
def ChartManager.new (func_str : String) (min_x max_x min_y max_y : ℚ)
    (num_interval : ℕ) (resolution : ℤ) : ChartManager :=
  { func_str := func_str, min_x := min_x, max_x := max_x, min_y := min_y,
    max_y := max_y, num_interval := num_interval, resolution := resolution,
    back_cache := none, front_cache := none,
    use_back_cache := false, use_front_cache := false }

/-- src/lib.rs `ChartManager::integral_rectangles`: the wasm build's
rectangle generator.  A NaN height is replaced by the `(0.0, 0.0, 0.0)`
sentinel, which the filter then drops. -/
def ChartManager.integral_rectangles (m : ChartManager) (step : ℚ)
    (f : ℚ → FVal) : List (ℚ × ℚ × FVal) × ℚ :=
  let sentinel : ℚ × ℚ × FVal := (0, 0, .val 0)
  let data2 := ((List.range m.num_interval).map (fun (e : ℕ) =>
      let x : ℚ := (e : ℚ) * step + m.min_x
      let x2 : ℚ := if 0 < x then x + step else x - step
      let tmp1 := f x
      let tmp2 := f x2
      let y : FVal := if tmp2.absGt tmp1 then tmp1 else tmp2
      if y.isNaN = false then (x, x2, y) else sentinel)).filter
    (fun ele => ele ≠ sentinel)
  let area : ℚ := (data2.map (fun ele => ele.2.2.q * step)).sum
  (data2, area)

/-- src/lib.rs `ChartManager::draw` restricted to its data computations: the
`parse().unwrap()`, the two cache lookups with their invariant panics, and
the cache refills.  The rendering calls are the out-of-scope collaborator and
produce no data.  Returns the updated manager and the area. -/
def ChartManager.draw (c : Compiler) (m : ChartManager) :
    Except (Panic × ChartManager) (ChartManager × ℚ) :=
  match c m.func_str with
  | none => .error ("func_str.parse() failed", m)
  | some f =>
      let absrange : ℚ := |m.max_x - m.min_x|
      match
        (if m.use_back_cache then
          match m.back_cache with
          | some cache => .ok (cache, m)
          | none => .error ("use_back_cache is true, but back_cache is None!", m)
        else
          let output := ((List.range m.resolution.toNat).map (fun (k : ℕ) =>
              ((k : ℚ) + 1) / (m.resolution : ℚ) * absrange + m.min_x)).map
            (fun x => (x, f x)) |>.filter
            (fun p => p.2.inRange m.min_y m.max_y)
          .ok (output, { m with back_cache := some output }) :
        Except (Panic × ChartManager) (List (ℚ × FVal) × ChartManager)) with
      | .error e => .error e
      | .ok (_, m1) =>
          if m1.use_front_cache then
            match m1.front_cache with
            | some cache => .ok (m1, cache.2)
            | none =>
                .error ("use_front_cache is true, but front_cache is None!", m1)
          else
            let step : ℚ := absrange / (m1.num_interval : ℚ)
            let output := m1.integral_rectangles step f
            .ok ({ m1 with front_cache := some output }, output.2)

/-- The `underlying_update` condition of src/lib.rs `ChartManager::update`
(lines 144-148). -/
def ChartManager.underlyingUpdate (m : ChartManager) (func_str : String)
    (min_x max_x min_y max_y : ℚ) : Bool :=
  decide (func_str ≠ m.func_str) || decide (min_x ≠ m.min_x) ||
    decide (max_x ≠ m.max_x) || decide (min_y ≠ m.min_y) ||
    decide (max_y ≠ m.max_y)

/-- src/lib.rs `ChartManager::update`: the three panic checks, the cache
validity flags (computed against the old state), the parameter overwrite, and
the draw call, in source order.  The error value carries the state the object
holds at the moment of the panic. -/
def ChartManager.update (c : Compiler) (m : ChartManager) (func_str : String)
    (min_x max_x min_y max_y : ℚ) (num_interval : ℕ) (resolution : ℤ) :
    Except (Panic × ChartManager) (ChartManager × ℚ) :=
  let underlying := m.underlyingUpdate func_str min_x max_x min_y max_y
  if underlying = true ∧ min_x ≥ max_x then
    .error ("min_x is greater than (or equal to) than max_x!", m)
  else if underlying = true ∧ min_y ≥ max_y then
    .error ("min_y is greater than (or equal to) than max_y!", m)
  else if resolution < 0 then
    .error ("resolution cannot be less than 0", m)
  else
    let m1 := { m with
      use_back_cache := !underlying && decide (m.resolution = resolution) &&
        m.back_cache.isSome,
      use_front_cache := !underlying && decide (num_interval = m.num_interval) &&
        m.front_cache.isSome }
    let m2 := { m1 with func_str := func_str, min_x := min_x, max_x := max_x,
                        min_y := min_y, max_y := max_y,
                        num_interval := num_interval, resolution := resolution }
    m2.draw c

/-- A compiler recognizing only the expression string "x", compiled to the
identity function; every other string is a parse failure. -/
def idCompiler : Compiler := fun str =>
  if str = "x" then some (fun q => FVal.val q) else none

/-- C10: a `Function::update` call whose incoming expression string is empty
only stores the empty string; every other field — both caches, the viewport
bounds, the pixel width and all integration settings — is left unchanged, for
every compiler (hence without recompiling) and for arbitrary other
parameters. -/
theorem C10_empty_expression_only_clears_func_str (c : Compiler)
    (s : Function) (integral : Bool) (imin imax : Option ℚ) (inum : Option ℕ)
    (rsum : Option RiemannSum) :
    Function.update c s "" integral imin imax inum rsum =
      .ok { s with func_str := "" } := by
  simp [Function.update]

/-- On success, `Function::new` always starts with both caches empty. -/
theorem Function.new_ok_caches_none (c : Compiler) (func_str : String)
    (min_x max_x : ℚ) (pixel_width : ℕ) (integral : Bool)
    (imin imax : Option ℚ) (inum : Option ℕ) (rsum : Option RiemannSum)
    (t : Function)
    (h : Function.new c func_str min_x max_x pixel_width integral imin imax
        inum rsum = .ok t) :
    t.back_cache = none ∧ t.front_cache = none := by
  unfold Function.new at h
  repeat' split at h
  any_goals cases h
  all_goals simp

/-- C5 (amended): a `Function::update` call whose incoming expression string
is non-empty and differs from the stored one invalidates both the sampler
cache and the integrator cache unconditionally. -/
theorem C5_changed_expression_wipes_both_caches (c : Compiler) (s : Function)
    (func_str : String) (integral : Bool) (imin imax : Option ℚ)
    (inum : Option ℕ) (rsum : Option RiemannSum) (t : Function)
    (hne : func_str ≠ "") (hch : func_str ≠ s.func_str)
    (hok : Function.update c s func_str integral imin imax inum rsum = .ok t) :
    t.back_cache = none ∧ t.front_cache = none := by
  unfold Function.update at hok
  rw [if_neg hne, if_pos hch] at hok
  cases hnew : Function.new c func_str s.min_x s.max_x s.pixel_width integral
      imin imax inum rsum with
  | error e => rw [hnew] at hok; cases hok
  | ok t2 =>
      rw [hnew] at hok
      cases hok
      exact Function.new_ok_caches_none _ _ _ _ _ _ _ _ _ _ _ hnew

/-- State used by the C5 witness. -/
def c5wState : Function :=
  { f := fun q => FVal.val q, func_str := "x", min_x := 0, max_x := 1,
    pixel_width := 1, back_cache := some [⟨0, .val 0⟩],
    front_cache := some ([(0, .val 0)], 0), integral := false,
    integral_min_x := none, integral_max_x := none, integral_num := 0,
    sum := .Left, evals := 0 }

/-- Compiler used by the C5 witness: knows "x" and "y". -/
def c5wCompiler : Compiler := fun str =>
  if str = "x" ∨ str = "y" then some (fun q => FVal.val q) else none

/-- Result state of the C5 witness update. -/
def c5wT : Function :=
  { f := fun q => FVal.val q, func_str := "y", min_x := 0, max_x := 1,
    pixel_width := 1, back_cache := none, front_cache := none,
    integral := false, integral_min_x := none, integral_max_x := none,
    integral_num := 0, sum := .Left, evals := 0 }

/-- C5 witness: a concrete changed-expression update (from "x" to "y"), on a
state with both caches populated, ends with both caches empty. -/
theorem C5_changed_expression_wipes_both_caches_witness :
    Function.update c5wCompiler c5wState "y" false none none none none =
      .ok c5wT ∧
    c5wT.back_cache = none ∧ c5wT.front_cache = none :=
  ⟨rfl,
   C5_changed_expression_wipes_both_caches c5wCompiler c5wState "y" false
     none none none none c5wT (by decide) (by decide) rfl⟩

/-- C5 counterexample: an update whose incoming expression is the EMPTY
string differs from the stored "x", yet takes the empty-string early-return
path and leaves both caches populated — the claim as stated (any differing
incoming expression invalidates both caches) is false for the empty
string. -/
theorem C5_counterexample_empty_string_keeps_caches :
    Function.update idCompiler c5wState "" false none none none none =
      .ok { c5wState with func_str := "" } ∧
    ("" : String) ≠ c5wState.func_str ∧
    ({ c5wState with func_str := "" }).back_cache = some [⟨0, .val 0⟩] ∧
    ({ c5wState with func_str := "" }).front_cache =
      some ([(0, .val 0)], 0) := by
  refine ⟨rfl, by decide, rfl, rfl⟩

/-- C2: for non-NaN integration bounds and a positive rectangle count,
`Function::integral_rectangles` returns exactly the rectangles of the raw
grid whose height is not NaN — so no NaN-height rectangle survives — and the
area is the signed sum `Σ height * step` over the surviving rectangles
(negative heights contribute negatively; no absolute value is taken). -/
theorem C2_nan_rectangles_dropped_and_area_signed_sum (s : Function)
    (a b : ℚ) (data : List (ℚ × FVal)) (area : ℚ) (n : ℕ)
    (ha : s.integral_min_x = some a) (hb : s.integral_max_x = some b)
    (hn : 0 < s.integral_num)
    (hok : s.integral_rectangles = .ok (data, area, n)) :
    data = (s.rectRaw a b).filter (fun p => !p.2.isNaN) ∧
      (∀ p ∈ data, p.2.isNaN = false) ∧
      area =
        (data.map (fun p => p.2.q * (|a - b| / (s.integral_num : ℚ)))).sum := by
  unfold Function.integral_rectangles at hok
  rw [ha, hb] at hok
  simp only [Except.ok.injEq, Prod.mk.injEq] at hok
  obtain ⟨h1, h2, -⟩ := hok
  refine ⟨h1.symm, ?_, h2.symm.trans (by rw [h1])⟩
  intro p hp
  have := (List.mem_filter.mp (h1 ▸ hp)).2
  simpa using this

/-- State used by the C2 witness: a function undefined (NaN) at 0, integrated
over [0, 1] with two left-rule rectangles; the first rectangle's height is
NaN and must be dropped. -/
def c2wState : Function :=
  { f := fun q => if q = 0 then FVal.nan else FVal.val 1,
    func_str := "1/x", min_x := 0, max_x := 1, pixel_width := 1,
    back_cache := none, front_cache := none, integral := true,
    integral_min_x := some 0, integral_max_x := some 1,
    integral_num := 2, sum := .Left, evals := 0 }

/-- C2 witness: on the concrete state, the NaN-height rectangle is dropped,
one rectangle of height 1 and step 1/2 survives, and the area is 1/2. -/
theorem C2_nan_rectangles_dropped_and_area_signed_sum_witness :
    Function.integral_rectangles c2wState =
      .ok ([((3 : ℚ)/4, FVal.val 1)], 1/2, 2) ∧
    (∀ p ∈ [((3 : ℚ)/4, FVal.val 1)], p.2.isNaN = false) := by
  have hok : Function.integral_rectangles c2wState =
      .ok ([((3 : ℚ)/4, FVal.val 1)], 1/2, 2) := by
    norm_num [Function.integral_rectangles, Function.rectRaw, c2wState,
      Function.run_func, List.range_succ, FVal.isNaN, FVal.q]
  exact ⟨hok,
    (C2_nan_rectangles_dropped_and_area_signed_sum c2wState 0 1 _ _ _ rfl rfl
      (by norm_num [c2wState]) hok).2.1⟩

/-- Helper turning a decidable string disequality into a rewrite rule for
reducing the string comparisons of `Function::update`. -/
theorem str_eq_false (a b : String) (h : ¬a = b) : (a = b) = False :=
  eq_false h

/-- Changing `integral` alone leaves the integral-settings comparison
unchanged: the comparison reads only the four stored integration
parameters. -/
theorem Function.integralSettingsChanged_set_integral (s : Function)
    (b : Bool) (imin imax : Option ℚ) (inum : Option ℕ)
    (rsum : Option RiemannSum) :
    Function.integralSettingsChanged { s with integral := b } imin imax inum
        rsum =
      s.integralSettingsChanged imin imax inum rsum := rfl

/-- C4 (amended): the integrator cache policy of `Function::update` and
`Function::run`.  With the expression unchanged: the front cache is
invalidated exactly when integration is enabled and one of the four
integration parameters (bounds, rectangle count, rule) differs from the
stored ones — in particular a `rectangle_count` change alone invalidates —
and otherwise survives, including across an off→on toggle of `integral`
with unchanged parameters (re-enabling does NOT invalidate).  When both
caches are present and integration is enabled, `run` returns the cached
rectangles+area unmodified, with no state change and no evaluation of the
compiled function. -/
theorem C4_integrator_cache_reuse_policy :
    (∀ (c : Compiler) (s : Function) (integral : Bool) (imin imax : Option ℚ)
        (inum : Option ℕ) (rsum : Option RiemannSum) (t : Function),
        s.func_str ≠ "" →
        Function.update c s s.func_str integral imin imax inum rsum = .ok t →
        ((integral = true ∧
            s.integralSettingsChanged imin imax inum rsum = true →
              t.front_cache = none) ∧
         (¬(integral = true ∧
            s.integralSettingsChanged imin imax inum rsum = true) →
              t.front_cache = s.front_cache))) ∧
    (∀ (s : Function) (bc : List Value) (fc : List (ℚ × FVal) × ℚ),
        s.integral = true → s.back_cache = some bc → s.front_cache = some fc →
        s.run = .ok (bc, some fc, s)) := by
  constructor
  · intro c s integral imin imax inum rsum t hne hok
    unfold Function.update at hok
    rw [if_neg hne, if_neg (by simp)] at hok
    simp only [Function.integralSettingsChanged_set_integral] at hok
    split at hok
    · rename_i hcond
      repeat' split at hok
      any_goals cases hok
      all_goals exact ⟨fun _ => rfl, fun hn => absurd hcond hn⟩
    · rename_i hcond
      cases hok
      exact ⟨fun h => absurd h hcond, fun _ => rfl⟩
  · intro s bc fc hi hbc hfc
    unfold Function.run Function.runLine
    rw [hbc]
    simp [hi, hfc]

/-- State used by the C4 witness: integration enabled, both caches
present. -/
def c4wState : Function :=
  { f := fun q => FVal.val q, func_str := "x", min_x := 0, max_x := 1,
    pixel_width := 1, back_cache := some [⟨0, .val 0⟩, ⟨1, .val 1⟩],
    front_cache := some ([((1 : ℚ)/2, FVal.val 0)], 0), integral := true,
    integral_min_x := some 0, integral_max_x := some 1, integral_num := 1,
    sum := .Left, evals := 0 }

/-- C4 witness: on the concrete state, a `rectangle_count` change alone
(1 → 2) invalidates the front cache, and with both caches present `run`
returns the cached rectangles unmodified. -/
theorem C4_integrator_cache_reuse_policy_witness :
    (∀ t, Function.update idCompiler c4wState "x" true (some 0) (some 1)
        (some 2) (some .Left) = .ok t → t.front_cache = none) ∧
    c4wState.run =
      .ok ([⟨0, .val 0⟩, ⟨1, .val 1⟩], some ([((1 : ℚ)/2, FVal.val 0)], 0),
        c4wState) := by
  constructor
  · intro t hok
    exact (C4_integrator_cache_reuse_policy.1 idCompiler c4wState true
        (some 0) (some 1) (some 2) (some .Left) t (by decide) hok).1
      ⟨rfl, by norm_num [Function.integralSettingsChanged, c4wState,
        neqStored]⟩
  · exact C4_integrator_cache_reuse_policy.2 c4wState _ _ rfl rfl rfl

/-- State after the C4 counterexample's `Function::new`. -/
def c4s0 : Function :=
  { f := fun q => FVal.val q, func_str := "x", min_x := 0, max_x := 1,
    pixel_width := 1, back_cache := none, front_cache := none,
    integral := true, integral_min_x := some 0, integral_max_x := some 1,
    integral_num := 1, sum := .Left, evals := 0 }

/-- State after the C4 counterexample's first `run`: both caches populated,
three evaluations performed (two samples, one rectangle). -/
def c4s1 : Function :=
  { c4s0 with
    back_cache := some [⟨0, .val 0⟩, ⟨1, .val 1⟩],
    front_cache := some ([((1 : ℚ)/2, FVal.val 0)], 0),
    evals := 3 }

/-- State after the C4 counterexample toggles integration off. -/
def c4s2 : Function := { c4s1 with integral := false }

/-- The C4 counterexample call sequence: create a `Function` with integration
enabled, run it (populating both caches), toggle integration off, toggle it
back on with identical integration parameters, run again.  The observation is
(front cache after the first run, evaluation count then, the rectangles+area
the final run returns, evaluation count after it). -/
def c4Chain :
    Option ((List (ℚ × FVal) × ℚ) × ℕ × (List (ℚ × FVal) × ℚ) × ℕ) :=
  match Function.new idCompiler "x" 0 1 1 true (some 0) (some 1) (some 1)
      (some .Left) with
  | .error _ => none
  | .ok s0 =>
      match s0.run with
      | .error _ => none
      | .ok (_, _, s1) =>
          match s1.front_cache with
          | none => none
          | some fc1 =>
              match Function.update idCompiler s1 "x" false none none none
                  none with
              | .error _ => none
              | .ok s2 =>
                  match Function.update idCompiler s2 "x" true (some 0)
                      (some 1) (some 1) (some .Left) with
                  | .error _ => none
                  | .ok s3 =>
                      match s3.run with
                      | .error _ => none
                      | .ok (_, none, _) => none
                      | .ok (_, some fc4, s4) =>
                          some (fc1, s3.evals, fc4, s4.evals)

/-- C4 counterexample: after toggling integration off and back on with
identical parameters, the final `run` returns the previously cached
rectangles+area bit-identically and performs zero further evaluations of the
compiled function (the evaluation count stays at 3) — the off→on transition
does not invalidate the integrator cache and forces no recomputation,
contrary to the claim. -/
theorem C4_counterexample_off_on_toggle_reuses_cache :
    c4Chain =
      some (([((1 : ℚ)/2, FVal.val 0)], 0), 3,
            ([((1 : ℚ)/2, FVal.val 0)], 0), 3) := by
  have h0 : Function.new idCompiler "x" 0 1 1 true (some 0) (some 1) (some 1)
      (some .Left) = .ok c4s0 := by
    norm_num [Function.new, idCompiler, c4s0]
  have h1 : c4s0.run =
      .ok ([⟨0, .val 0⟩, ⟨1, .val 1⟩], some ([((1 : ℚ)/2, FVal.val 0)], 0),
        c4s1) := by
    norm_num [Function.run, Function.runLine, c4s0, c4s1, samplePositions,
      Function.integral_rectangles, Function.rectRaw, Function.run_func,
      List.range_succ, FVal.q, FVal.isNaN]
  have h2 : Function.update idCompiler c4s1 "x" false none none none none =
      .ok c4s2 := by
    norm_num [Function.update, c4s0, c4s1, c4s2,
      str_eq_false "x" "" (by decide)]
  have h3 : Function.update idCompiler c4s2 "x" true (some 0) (some 1)
      (some 1) (some .Left) = .ok c4s1 := by
    norm_num [Function.update, Function.integralSettingsChanged, neqStored,
      c4s0, c4s1, c4s2, str_eq_false "x" "" (by decide)]
  have h4 : c4s1.run =
      .ok ([⟨0, .val 0⟩, ⟨1, .val 1⟩], some ([((1 : ℚ)/2, FVal.val 0)], 0),
        c4s1) := by
    norm_num [Function.run, Function.runLine, c4s0, c4s1]
  have hfc : c4s1.front_cache = some ([((1 : ℚ)/2, FVal.val 0)], 0) := rfl
  have hev : c4s1.evals = 3 := rfl
  simp only [c4Chain, h0, h1, hfc, h2, h3, h4, hev]

/-- C8 (amended): failure modes of the engine.  Parse and precondition
failures are signalled by panics (the `Except` error channel below; neither
`Function::update` nor `ChartManager::update` has a failure-result return
type).  The `min_x >= max_x` check of `ChartManager::update` panics before
any state mutation, a failing `Function::update` never mutates the sampler
cache, and a parse failure on a changed expression (integration off) panics
with the prior state intact. -/
theorem C8_failures_panic_not_result :
    (∀ (c : Compiler) (m : ChartManager) (func_str : String)
        (min_x max_x min_y max_y : ℚ) (num_interval : ℕ) (resolution : ℤ),
        m.underlyingUpdate func_str min_x max_x min_y max_y = true →
        min_x ≥ max_x →
        ChartManager.update c m func_str min_x max_x min_y max_y num_interval
            resolution =
          .error ("min_x is greater than (or equal to) than max_x!", m)) ∧
    (∀ (c : Compiler) (s : Function) (func_str : String) (integral : Bool)
        (imin imax : Option ℚ) (inum : Option ℕ) (rsum : Option RiemannSum)
        (p : Panic) (t : Function),
        Function.update c s func_str integral imin imax inum rsum =
          .error (p, t) →
        t.back_cache = s.back_cache) ∧
    (∀ (c : Compiler) (s : Function) (func_str : String)
        (imin imax : Option ℚ) (inum : Option ℕ) (rsum : Option RiemannSum),
        func_str ≠ "" → func_str ≠ s.func_str → c func_str = none →
        Function.update c s func_str false imin imax inum rsum =
          .error ("func_str.parse() failed", s)) := by
  refine ⟨?_, ?_, ?_⟩
  · intro c m func_str min_x max_x min_y max_y num_interval resolution h1 h2
    unfold ChartManager.update
    rw [if_pos ⟨h1, h2⟩]
  · intro c s func_str integral imin imax inum rsum p t hok
    unfold Function.update at hok
    by_cases h1 : func_str = ""
    · rw [if_pos h1] at hok; cases hok
    · rw [if_neg h1] at hok
      by_cases h2 : func_str ≠ s.func_str
      · rw [if_pos h2] at hok
        cases hnew : Function.new c func_str s.min_x s.max_x s.pixel_width
            integral imin imax inum rsum with
        | error e =>
            rw [hnew] at hok
            simp only [Except.error.injEq, Prod.mk.injEq] at hok
            obtain ⟨-, ht⟩ := hok
            subst ht; rfl
        | ok t2 => rw [hnew] at hok; cases hok
      · rw [if_neg h2] at hok
        by_cases h3 : integral = true ∧
            Function.integralSettingsChanged { s with integral := integral }
              imin imax inum rsum = true
        · rw [if_pos h3] at hok
          rcases imin with - | a
          · simp only [Except.error.injEq, Prod.mk.injEq] at hok
            obtain ⟨-, ht⟩ := hok
            subst ht; rfl
          · rcases imax with - | b
            · simp only [Except.error.injEq, Prod.mk.injEq] at hok
              obtain ⟨-, ht⟩ := hok
              subst ht; rfl
            · rcases inum with - | n
              · simp only [Except.error.injEq, Prod.mk.injEq] at hok
                obtain ⟨-, ht⟩ := hok
                subst ht; rfl
              · rcases rsum with - | r
                · simp only [Except.error.injEq, Prod.mk.injEq] at hok
                  obtain ⟨-, ht⟩ := hok
                  subst ht; rfl
                · cases hok
        · rw [if_neg h3] at hok; cases hok
  · intro c s func_str imin imax inum rsum hne hch hc
    unfold Function.update
    rw [if_neg hne, if_pos hch]
    unfold Function.new
    rw [if_neg (by simp), if_neg (by simp), if_neg (by simp),
      if_neg (by simp), hc]

/-- Chart state used by the C8 theorems. -/
def c8mState : ChartManager := ChartManager.new "x" 0 1 0 1 1 1

/-- Function state used by the C8 parse-failure counterexample: caches
populated, expression "x" stored. -/
def c8aState : Function :=
  { f := fun q => FVal.val q, func_str := "x", min_x := 0, max_x := 1,
    pixel_width := 1, back_cache := some [⟨0, .val 0⟩],
    front_cache := some ([(0, .val 0)], 0), integral := false,
    integral_min_x := none, integral_max_x := none, integral_num := 0,
    sum := .Left, evals := 0 }

/-- Function state used by the C8 missing-argument counterexample:
integration on with stored bounds and a populated integrator cache. -/
def c8cState : Function :=
  { f := fun q => FVal.val q, func_str := "x", min_x := 0, max_x := 1,
    pixel_width := 1, back_cache := some [⟨0, .val 0⟩],
    front_cache := some ([(0, .val 0)], 0), integral := true,
    integral_min_x := some 0, integral_max_x := some 1, integral_num := 1,
    sum := .Left, evals := 0 }

/-- State carried by the panic of the C8 missing-argument counterexample:
the integrator cache was already cleared when the panic fired. -/
def c8cT : Function := { c8cState with front_cache := none }

/-- C8 counterexample: three concrete failing calls, each of which panics
(the error channel) instead of returning an explicit failure result — the
engine APIs return no failure value at all — and the third of which has
already cleared the integrator cache (`front_cache` went from populated to
`none`) when the panic fires, so a failing call does mutate previously
cached state, contrary to the claim. -/
theorem C8_counterexample_panics_and_mutation :
    Function.update idCompiler c8aState "1+" false none none none none =
      .error ("func_str.parse() failed", c8aState) ∧
    ChartManager.update idCompiler c8mState "x" 2 1 0 1 1 1 =
      .error ("min_x is greater than (or equal to) than max_x!", c8mState) ∧
    Function.update idCompiler c8cState "x" true none (some 1) (some 1)
        (some .Left) =
      .error ("integral_min_x is None", c8cT) ∧
    c8cState.front_cache = some ([(0, .val 0)], 0) ∧
    c8cT.front_cache = none := by
  refine ⟨rfl, ?_, rfl, rfl, rfl⟩
  norm_num [ChartManager.update, ChartManager.new, c8mState,
    ChartManager.underlyingUpdate]

/-- C8 witness: the three parts of the amended theorem instantiated at the
concrete failing calls. -/
theorem C8_failures_panic_not_result_witness :
    ChartManager.update idCompiler c8mState "y" 2 1 0 1 1 1 =
      .error ("min_x is greater than (or equal to) than max_x!", c8mState) ∧
    c8cT.back_cache = c8cState.back_cache ∧
    Function.update idCompiler c8aState "x+x" false none none none none =
      .error ("func_str.parse() failed", c8aState) :=
  ⟨C8_failures_panic_not_result.1 idCompiler c8mState "y" 2 1 0 1 1 1
    (by norm_num [c8mState, ChartManager.new, ChartManager.underlyingUpdate])
    (by norm_num),
   C8_failures_panic_not_result.2.1 idCompiler c8cState "x" true none
    (some 1) (some 1) (some .Left) "integral_min_x is None" c8cT rfl,
   C8_failures_panic_not_result.2.2 idCompiler c8aState "x+x" none none none
    none (by decide) (by decide) rfl⟩

/-- A successful first-match search yields an index inside the list. -/
theorem findIdx?_some_lt {α : Type} {l : List α} {p : α → Bool} {i : ℕ}
    (h : l.findIdx? p = some i) : i < l.length :=
  (List.findIdx?_eq_some_iff_getElem.mp h).1

/-- Summing a {0,1}-valued map equals counting the predicate it tracks. -/
theorem sum_map_eq_countP {α : Type} (l : List α) (g : α → ℕ) (p : α → Bool)
    (h : ∀ x ∈ l, g x = if p x then 1 else 0) :
    (l.map g).sum = l.countP p := by
  induction l with
  | nil => simp
  | cons a t ih =>
      rw [List.map_cons, List.sum_cons, List.countP_cons,
        h a (List.mem_cons_self a t), ih (fun x hx => h x (List.mem_cons_of_mem a hx))]
      omega

/-- One partial-reuse step costs one evaluation exactly when the position is
outside the previous bounds or absent from the previous series. -/
theorem Function.reuseStep_snd (s : Function) (prev : List Value)
    (x_data : List ℚ) (x : ℚ) (hxd : x_data = prev.map (fun v => v.x)) :
    (s.reuseStep prev x_data x).2 =
      if decide (x < s.min_x ∨ s.max_x < x) ||
          (x_data.findIdx? (fun r => decide (r = x))).isNone then 1 else 0 := by
  unfold Function.reuseStep
  by_cases h1 : x < s.min_x ∨ s.max_x < x
  · simp [h1]
  · rw [if_neg h1]
    cases hf : x_data.findIdx? (fun r => decide (r = x)) with
    | none => simp [h1, hf]
    | some i =>
        have hi : i < prev.length := by
          have h := findIdx?_some_lt hf
          rwa [hxd, List.length_map] at h
        cases hp : prev[i]? with
        | none =>
            exfalso
            exact absurd hp (by simp [hi])
        | some v => simp [h1, hf, hp]

/-- C3: on the partial-reuse path of `Function::update_bounds` (pixel width
unchanged, bounds changed, previous series present), every new x position
within the previous bounds whose x value occurs in the previous series gets
that previous point back bit-identically (at the first matching index), every
position outside the previous bounds gets a fresh evaluation, and the total
number of new evaluations of the compiled function is exactly the number of
positions that are outside the previous bounds or absent from it — reused
points cost no evaluation. -/
theorem C3_partial_reuse_returns_previous_points (s : Function)
    (min_x max_x : ℚ) (pixel_width : ℕ) (prev : List Value)
    (hpw : pixel_width = s.pixel_width)
    (hch : min_x ≠ s.min_x ∨ max_x ≠ s.max_x)
    (hbc : s.back_cache = some prev) :
    ∃ cache,
      (s.update_bounds min_x max_x pixel_width).back_cache = some cache ∧
      cache.length = s.pixel_width + 1 ∧
      (∀ (j : ℕ) (x : ℚ), (samplePositions s.pixel_width
            ((s.pixel_width : ℚ) / (|max_x| + |min_x|)) min_x)[j]? =
          some x →
        (s.min_x ≤ x ∧ x ≤ s.max_x →
          ∀ i, (prev.map (fun v => v.x)).findIdx? (fun r => decide (r = x)) =
              some i →
            cache[j]? = prev[i]?) ∧
        ((x < s.min_x ∨ s.max_x < x) → cache[j]? = some ⟨x, s.f x⟩)) ∧
      (s.update_bounds min_x max_x pixel_width).evals =
        s.evals + (samplePositions s.pixel_width
            ((s.pixel_width : ℚ) / (|max_x| + |min_x|)) min_x).countP
          (fun x => decide (x < s.min_x ∨ s.max_x < x) ||
            ((prev.map (fun v => v.x)).findIdx?
              (fun r => decide (r = x))).isNone) := by
  have hub : s.update_bounds min_x max_x pixel_width =
      { s with
        back_cache := some ((samplePositions s.pixel_width
            ((s.pixel_width : ℚ) / (|max_x| + |min_x|)) min_x).map
          (fun x => (s.reuseStep prev (prev.map (fun v => v.x)) x).1)),
        evals := s.evals + ((samplePositions s.pixel_width
            ((s.pixel_width : ℚ) / (|max_x| + |min_x|)) min_x).map
          (fun x => (s.reuseStep prev (prev.map (fun v => v.x)) x).2)).sum } := by
    unfold Function.update_bounds
    rw [if_neg (by simp [hpw]), if_pos ⟨hch, by simp [hbc]⟩, hbc]
  refine ⟨_, by rw [hub], ?_, ?_, ?_⟩
  · simp only [List.length_map, samplePositions, List.length_range]
  · intro j x hj
    constructor
    · intro hin i hfind
      have hnot : ¬(x < s.min_x ∨ s.max_x < x) := by
        push_neg
        exact hin
      have hi : i < prev.length := by
        have h := findIdx?_some_lt hfind
        rwa [List.length_map] at h
      cases hp : prev[i]? with
      | none =>
          exfalso
          exact absurd hp (by simp [hi])
      | some v =>
          rw [List.getElem?_map, hj, Option.map_some']
          unfold Function.reuseStep
          rw [if_neg hnot]
          simp [hfind, hp]
    · intro hout
      rw [List.getElem?_map, hj, Option.map_some']
      unfold Function.reuseStep
      rw [if_pos hout]
      rfl
  · rw [hub]
    simp only [sum_map_eq_countP _ _ _
      (fun x _ => Function.reuseStep_snd s prev _ x rfl)]

/-- Previous series used by the C3 witness and the pan scenario: the full
sample of f(x) = x over bounds 1..2 at pixel width 2. -/
def panPrev : List Value := [⟨1, .val 1⟩, ⟨3/2, .val (3/2)⟩, ⟨2, .val 2⟩]

/-- Engine state holding the pan scenario's previous series. -/
def c3wState : Function :=
  { f := fun q => FVal.val q, func_str := "x", min_x := 1, max_x := 2,
    pixel_width := 2, back_cache := some panPrev, front_cache := none,
    integral := false, integral_min_x := none, integral_max_x := none,
    integral_num := 0, sum := .Left, evals := 0 }

/-- C3 witness: panning the bounds from 1..2 to 1..3 at pixel width 2 costs
exactly two fresh evaluations — the position x = 1, present in the previous
series, is reused for free. -/
theorem C3_partial_reuse_returns_previous_points_witness :
    ((2 : ℕ) = c3wState.pixel_width ∧
     ((1 : ℚ) ≠ c3wState.min_x ∨ (3 : ℚ) ≠ c3wState.max_x) ∧
     c3wState.back_cache = some panPrev) ∧
    (c3wState.update_bounds 1 3 2).evals = c3wState.evals + 2 := by
  obtain ⟨cache, -, -, -, hev⟩ :=
    C3_partial_reuse_returns_previous_points c3wState 1 3 2 panPrev rfl
      (by right; norm_num [c3wState]) rfl
  refine ⟨⟨rfl, by right; norm_num [c3wState], rfl⟩, ?_⟩
  rw [hev]
  norm_num [samplePositions, c3wState, panPrev, List.range_succ,
    List.countP_cons, List.findIdx?_cons]

/-- Engine state of the pan scenario before any call. -/
def pans0 : Function :=
  { f := fun q => FVal.val q, func_str := "x", min_x := 1, max_x := 2,
    pixel_width := 2, back_cache := none, front_cache := none,
    integral := false, integral_min_x := none, integral_max_x := none,
    integral_num := 0, sum := .Left, evals := 0 }

/-- Pan scenario after the first `run`: the series over 1..2 is cached. -/
def pans1 : Function := { pans0 with back_cache := some panPrev, evals := 3 }

/-- Pan scenario after `update_bounds(1, 3, 2)`: the partial-reuse path
rebuilt the cache at positions 1, 3, 5 (resolution computed from
`|max_x| + |min_x|` = 4) and left the stored bounds at 1..2. -/
def pans2 : Function :=
  { pans1 with
    back_cache := some [⟨1, .val 1⟩, ⟨3, .val 3⟩, ⟨5, .val 5⟩],
    evals := 5 }

/-- Pan scenario: the initial construction. -/
theorem pan_new : Function.new idCompiler "x" 1 2 2 false none none none
    none = .ok pans0 := by
  norm_num [Function.new, idCompiler, pans0]

/-- Pan scenario: the first run samples 1, 3/2, 2. -/
theorem pan_run1 : pans0.run = .ok (panPrev, none, pans1) := by
  norm_num [Function.run, Function.runLine, pans0, pans1, panPrev,
    samplePositions, Function.run_func, List.range_succ]

/-- Pan scenario: the partial-reuse rebuild at bounds 1..3. -/
theorem pan_ub : pans1.update_bounds 1 3 2 = pans2 := by
  norm_num [Function.update_bounds, pans0, pans1, pans2, panPrev,
    samplePositions, Function.reuseStep, Function.run_func, List.range_succ,
    List.findIdx?_cons, Option.some_ne_none]

/-- Pan scenario: the second run returns the rebuilt cache. -/
theorem pan_run2 : pans2.run =
    .ok ([⟨1, .val 1⟩, ⟨3, .val 3⟩, ⟨5, .val 5⟩], none, pans2) := by
  norm_num [Function.run, Function.runLine, pans0, pans1, pans2]

/-- The C1 call sequence: sample f(x) = x over bounds 1..2 at pixel width 2,
pan to bounds 1..3 with the same width, run again; observe the returned
series. -/
def c1Chain : Option (List Value) :=
  match Function.new idCompiler "x" 1 2 2 false none none none none with
  | .error _ => none
  | .ok s0 =>
      match s0.run with
      | .error _ => none
      | .ok (_, _, s1) =>
          match (s1.update_bounds 1 3 2).run with
          | .error _ => none
          | .ok (line, _, _) => some line

/-- C1: on the partial-reuse path the sampler returns the series at x = 1, 3,
5 for requested bounds 1..3 and pixel width 2: the count (3 = pixel_width+1),
the ascending order, the even spacing and the first point at min_x all hold,
but the spacing is (|max_x|+|min_x|)/pixel_width = 2 instead of
(max_x-min_x)/pixel_width = 1, so the last point sits at 5, not at
max_x = 3 — the code divides by `max_x.abs() + min_x.abs()` where the
full-recompute path divides by `(max_x - min_x).abs()`.  All values involved
are exactly representable in f64, so the rational evaluation coincides with
the floating-point one. -/
theorem C1_partial_reuse_path_misses_max_x :
    c1Chain = some [⟨1, .val 1⟩, ⟨3, .val 3⟩, ⟨5, .val 5⟩] := by
  simp only [c1Chain, pan_new, pan_run1, pan_ub, pan_run2]

/-- The C7 call sequence: the pan scenario again, observing the tracked
parameters (min_x, max_x, pixel_width) after `update_bounds(1, 3, 2)`. -/
def c7Chain : Option (ℚ × ℚ × ℕ) :=
  match Function.new idCompiler "x" 1 2 2 false none none none none with
  | .error _ => none
  | .ok s0 =>
      match s0.run with
      | .error _ => none
      | .ok (_, _, s1) =>
          let s2 := s1.update_bounds 1 3 2
          some (s2.min_x, s2.max_x, s2.pixel_width)

/-- C7: after `update_bounds` takes the partial-reuse path with supplied
bounds (1, 3) and pixel width 2, the tracked parameters still read
(1, 2, 2) — the stored `max_x` was not updated to the supplied 3, so the next
call's comparison is made against stale bounds. -/
theorem C7_partial_reuse_path_keeps_stale_bounds :
    c7Chain = some (1, 2, 2) := by
  simp only [c7Chain, pan_new, pan_run1, pan_ub]
  norm_num [pans2, pans1, pans0]

/-- Engine state of the C6 scenario before any call: f(x) = x over bounds
-1..1 at pixel width 2. -/
def c6s0 : Function :=
  { f := fun q => FVal.val q, func_str := "x", min_x := -1, max_x := 1,
    pixel_width := 2, back_cache := none, front_cache := none,
    integral := false, integral_min_x := none, integral_max_x := none,
    integral_num := 0, sum := .Left, evals := 0 }

/-- The series the C6 scenario samples: (-1, 0, 1). -/
def c6Line : List Value := [⟨-1, .val (-1)⟩, ⟨0, .val 0⟩, ⟨1, .val 1⟩]

/-- C6 scenario after a run: series cached, three evaluations. -/
def c6s1 : Function := { c6s0 with back_cache := some c6Line, evals := 3 }

/-- C6 scenario after the second `update_bounds` with identical parameters:
the cache has been cleared again. -/
def c6s2 : Function := { c6s1 with back_cache := none }

/-- C6 scenario after the second run: recomputed, six evaluations total. -/
def c6s3 : Function := { c6s2 with back_cache := some c6Line, evals := 6 }

/-- The C6 call sequence: two identical refresh cycles
(`update_bounds(-1, 1, 2)` then `run`), observing each returned series, the
evaluation count after each run, and whether the second `update_bounds` left
the cache cleared. -/
def c6Chain : Option (List Value × ℕ × Bool × List Value × ℕ) :=
  match Function.new idCompiler "x" (-1) 1 2 false none none none none with
  | .error _ => none
  | .ok s0 =>
      match (s0.update_bounds (-1) 1 2).run with
      | .error _ => none
      | .ok (line1, _, s1) =>
          let s2 := s1.update_bounds (-1) 1 2
          match s2.run with
          | .error _ => none
          | .ok (line2, _, s3) =>
              some (line1, s1.evals, s2.back_cache.isNone, line2, s3.evals)

/-- C6: calling the sampler twice with identical parameters returns
bit-identical series, but the second call is NOT a cache hit: the
`update_bounds` branch taken when nothing changed clears `back_cache`
(observed as `true` below), and the second `run` re-evaluates the compiled
function at all pixel_width+1 positions, raising the evaluation count from 3
to 6. -/
theorem C6_identical_call_recomputes :
    c6Chain = some (c6Line, 3, true, c6Line, 6) := by
  have h0 : Function.new idCompiler "x" (-1) 1 2 false none none none none =
      .ok c6s0 := by
    norm_num [Function.new, idCompiler, c6s0]
  have h1 : c6s0.update_bounds (-1) 1 2 = c6s0 := by
    norm_num [Function.update_bounds, c6s0]
  have h2 : c6s0.run = .ok (c6Line, none, c6s1) := by
    norm_num [Function.run, Function.runLine, c6s0, c6s1, c6Line,
      samplePositions, Function.run_func, List.range_succ]
  have h3 : c6s1.update_bounds (-1) 1 2 = c6s2 := by
    norm_num [Function.update_bounds, c6s0, c6s1, c6s2, Option.some_ne_none]
  have h4 : c6s2.run = .ok (c6Line, none, c6s3) := by
    norm_num [Function.run, Function.runLine, c6s0, c6s1, c6s2, c6s3, c6Line,
      samplePositions, Function.run_func, List.range_succ]
  simp only [c6Chain, h0, h1, h2, h3, h4]
  norm_num [c6s0, c6s1, c6s2, c6s3]

/-- Engine state of the C9 scenario after construction: integration over
[-1, 1], two rectangles, Left rule. -/
def c9s0 : Function :=
  { f := fun q => FVal.val q, func_str := "x", min_x := 0, max_x := 1,
    pixel_width := 1, back_cache := none, front_cache := none,
    integral := true, integral_min_x := some (-1), integral_max_x := some 1,
    integral_num := 2, sum := .Left, evals := 0 }

/-- C9 scenario after the run: both caches populated, four evaluations. -/
def c9s1 : Function :=
  { c9s0 with
    back_cache := some [⟨0, .val 0⟩, ⟨1, .val 1⟩],
    front_cache := some ([(-(3 : ℚ)/2, FVal.val (-2)), ((1 : ℚ)/2,
      FVal.val 0)], -2),
    evals := 4 }

/-- The C9 call sequence: f(x) = x, integration enabled over [-1, 1] with the
Left rule and rectangle_count = 2; observe the rectangles and the area the
first run computes. -/
def c9Chain : Option (List (ℚ × FVal) × ℚ) :=
  match Function.new idCompiler "x" 0 1 1 true (some (-1)) (some 1) (some 2)
      (some .Left) with
  | .error _ => none
  | .ok s0 =>
      match s0.run with
      | .error _ => none
      | .ok (_, some fr, _) => some fr
      | .ok (_, none, _) => none

/-- C9: integrating f(x) = x over [-1, 1] with the Left rule and
rectangle_count = 2 yields area = -2, not ≈ 0.  The first rectangle is
anchored at x = -1 and, because x is negative, expands AWAY from zero: its
sample points are -2 and -1 (outside the requested range on the left, height
f(-2) = -2), while the interval (-1, 0) is covered by no rectangle — the
sign-aware placement leaves a gap at the origin and spills outside the
bounds, so the positive and negative contributions do not cancel.  All
values are exactly representable in f64. -/
theorem C9_left_rule_area_not_zero :
    c9Chain = some ([(-(3 : ℚ)/2, FVal.val (-2)), ((1 : ℚ)/2, FVal.val 0)],
      -2) := by
  have h0 : Function.new idCompiler "x" 0 1 1 true (some (-1)) (some 1)
      (some 2) (some .Left) = .ok c9s0 := by
    norm_num [Function.new, idCompiler, c9s0]
  have h1 : c9s0.run =
      .ok ([⟨0, .val 0⟩, ⟨1, .val 1⟩],
        some ([(-(3 : ℚ)/2, FVal.val (-2)), ((1 : ℚ)/2, FVal.val 0)], -2),
        c9s1) := by
    norm_num [Function.run, Function.runLine, c9s0, c9s1, samplePositions,
      Function.integral_rectangles, Function.rectRaw, Function.run_func,
      List.range_succ, FVal.q, FVal.isNaN]
  simp only [c9Chain, h0, h1]

end IntegralSite
